import Mathlib

/-!
Verification of the F5 BIG-IP Firewall Shell 2G driver (src/driver.py).

The driver is a dispatch layer: each public method builds per-call handler
objects from the platform call context and forwards the arguments to an
external runner.  We embed each method as a Lean function that returns the
trace of observable steps it performs (lock acquisition, scoped error-handling
boundary, structured log lines, calls into the external collaborator layer)
together with its return value.  External collaborators (cloudshell.* and
f5.* libraries) are opaque to the driver, so they are modelled symbolically:
each constructor records exactly the arguments the driver hands over.
-/

namespace F5Driver

/-- Python `or` on strings: the empty string is falsy, so `a or b` yields `b`
when `a` is empty and `a` otherwise. -/
def pyOr (a b : String) : String := if a = "" then b else a

/-- ASCII whitespace stripped by Python `int()` around a numeric literal. -/
def isSpaceChar (c : Char) : Bool :=
  c = ' ' || c = '\t' || c = '\n' || c = '\r' || c = '\x0b' || c = '\x0c'

/-- Drops leading and trailing whitespace from a character list. -/
def stripSpaces (cs : List Char) : List Char :=
  ((cs.dropWhile isSpaceChar).reverse.dropWhile isSpaceChar).reverse

/-- Numeric value of a decimal digit character. -/
def digitVal (c : Char) : Nat := c.toNat - 48

/-- Python `int()` applied to a textual attribute: surrounding whitespace is
stripped, an optional sign is followed by decimal digits; any other text makes
`int()` raise, modelled as `none`. -/
def pyInt (s : String) : Option Int :=
  let t := stripSpaces s.data
  let core := match t with
    | '-' :: rest => rest
    | '+' :: rest => rest
    | other => other
  if core.isEmpty || !(core.all Char.isDigit) then none
  else
    let n : Nat := core.foldl (fun acc c => acc * 10 + digitVal c) 0
    match t with
    | '-' :: _ => some (-(n : Int))
    | _ => some (n : Int)

/-- The slice of the platform call context that the driver itself inspects:
the resource attribute backing `sessions_concurrency_limit`.  Everything else
in the context is opaque to the driver and is threaded through to the external
collaborators unchanged, so the context value itself stands for the rest. -/
structure Context where
  sessionsConcurrencyLimit : String
deriving DecidableEq

/-- driver.py: `SHELL_NAME = "F5 BIG IP Firewall 2G"`. -/
def SHELL_NAME : String := "F5 BIG IP Firewall 2G"

/-- driver.py: `SUPPORTED_OS = ["BIG[ -]?IP"]`. -/
def SUPPORTED_OS : List String := ["BIG[ -]?IP"]

/-- Symbolic resource configuration produced by the external factory
`create_firewall_resource_from_context`: it records the arguments the driver
passed and exposes the one attribute the driver reads back. -/
structure ResourceConfig where
  shell_name : String
  supported_os : List String
  sessions_concurrency_limit : String
deriving DecidableEq

/-- Symbolic model of cloudshell's `create_firewall_resource_from_context`. -/
def create_firewall_resource_from_context (shellName : String)
    (supportedOs : List String) (ctx : Context) : ResourceConfig :=
  ⟨shellName, supportedOs, ctx.sessionsConcurrencyLimit⟩

/-- Symbolic CloudShell API handle returned by `get_api(context)`. -/
structure ApiHandle where
  ctx : Context
deriving DecidableEq

/-- Symbolic model of cloudshell's `get_api`. -/
def get_api (ctx : Context) : ApiHandle := ⟨ctx⟩

/-- Symbolic CLI session pool returned by `get_cli(session_pool_size)`:
it records the concurrency limit it was created with. -/
structure CliPool where
  pool_size : Int
deriving DecidableEq

/-- Symbolic model of cloudshell's `get_cli`. -/
def get_cli (sessionPoolSize : Int) : CliPool := ⟨sessionPoolSize⟩

/-- Symbolic per-call logger returned by `get_logger_with_thread_id(context)`. -/
structure Logger where
  ctx : Context
deriving DecidableEq

/-- Symbolic model of cloudshell's `get_logger_with_thread_id`. -/
def get_logger_with_thread_id (ctx : Context) : Logger := ⟨ctx⟩

/-- Symbolic `F5CliHandler(cli, resource_config, logger, api)`: records the
constructor arguments, in particular which CLI session pool it wraps. -/
structure F5CliHandler where
  cli : Option CliPool
  resource_config : ResourceConfig
  logger : Logger
  api : ApiHandle
deriving DecidableEq

/-- Symbolic `F5SnmpHandler(resource_config, logger, api, cli_handler)`. -/
structure F5SnmpHandler where
  resource_config : ResourceConfig
  logger : Logger
  api : ApiHandle
  cli_handler : F5CliHandler
deriving DecidableEq

/-- Symbolic `RunCommandRunner(logger, cli_handler)`. -/
structure RunCommandRunner where
  logger : Logger
  cli_handler : F5CliHandler
deriving DecidableEq

/-- Symbolic `F5ConfigurationRunner(cli_handler, logger, resource_config, api)`. -/
structure F5ConfigurationRunner where
  cli_handler : F5CliHandler
  logger : Logger
  resource_config : ResourceConfig
  api : ApiHandle
deriving DecidableEq

/-- Symbolic `F5FirmwareRunner(cli_handler, logger)`. -/
structure F5FirmwareRunner where
  cli_handler : F5CliHandler
  logger : Logger
deriving DecidableEq

/-- Symbolic `StateRunner(logger, api, resource_config, cli_handler)`. -/
structure StateRunner where
  logger : Logger
  api : ApiHandle
  resource_config : ResourceConfig
  cli_handler : F5CliHandler
deriving DecidableEq

/-- Symbolic `F5FirewallAutoloadRunner(logger, resource_config, snmp_handler)`. -/
structure F5FirewallAutoloadRunner where
  logger : Logger
  resource_config : ResourceConfig
  snmp_handler : F5SnmpHandler
deriving DecidableEq

/-- Symbolic result of cloudshell's `parse_custom_commands`: it records the raw
command text handed to it. -/
structure ParsedCommands where
  raw : String
deriving DecidableEq

/-- Symbolic model of cloudshell's `parse_custom_commands`. -/
def parse_custom_commands (s : String) : ParsedCommands := ⟨s⟩

/-- Symbolic result of a delegated runner call: each constructor records the
runner object that was invoked and the keyword arguments the driver forwarded. -/
inductive RunnerResult where
  | autoloadDiscover (r : F5FirewallAutoloadRunner)
  | customCommand (r : RunCommandRunner) (custom_command : ParsedCommands)
  | customConfigCommand (r : RunCommandRunner) (custom_command : ParsedCommands)
  | configSave (r : F5ConfigurationRunner) (folder_path configuration_type : String)
  | configRestore (r : F5ConfigurationRunner) (path restore_method configuration_type : String)
  | firmwareLoad (r : F5FirmwareRunner) (path : String)
  | stateShutdown (r : StateRunner)
  | orchSave (r : F5ConfigurationRunner) (mode custom_params : String)
  | orchRestore (r : F5ConfigurationRunner) (saved_artifact_info custom_params : String)
  | stateHealthCheck (r : StateRunner)
deriving DecidableEq

/-- One observable step of a driver method. -/
inductive Event where
  | logInfo (logger : Logger) (msg : String)
  | lockAcquire
  | lockRelease
  | boundaryEnter (logger : Logger)
  | boundaryExit
  | callCreateResource (shell_name : String) (supported_os : List String) (ctx : Context)
  | callGetApi (ctx : Context)
  | callGetCli (size : Int)
  | newCliHandler (h : F5CliHandler)
  | newSnmpHandler (h : F5SnmpHandler)
  | runnerCall (r : RunnerResult)
deriving DecidableEq

/-- The driver instance state established in `__init__`: the single `_cli`
field, `None` until `initialize` stores the CLI session pool there. -/
structure DriverState where
  _cli : Option CliPool
deriving DecidableEq

/-- driver.py `initialize`: builds the resource config from the context,
converts `sessions_concurrency_limit` with `int()`, creates the CLI session
pool via `get_cli` and stores it in `_cli`, then returns
"Finished initializing".  A failing `int()` propagates as an exception,
modelled as `none`; no logger, lock or error-handling boundary is used. -/
def initializeCmd (ctx : Context) (st : DriverState) :
    List Event × Option (DriverState × String) :=
  let resource_config := create_firewall_resource_from_context SHELL_NAME SUPPORTED_OS ctx
  match pyInt resource_config.sessions_concurrency_limit with
  | none => ([Event.callCreateResource SHELL_NAME SUPPORTED_OS ctx], none)
  | some session_pool_size =>
      ([Event.callCreateResource SHELL_NAME SUPPORTED_OS ctx,
        Event.callGetCli session_pool_size],
       some ({ st with _cli := some (get_cli session_pool_size) },
             "Finished initializing"))

/-- driver.py `get_inventory` (decorated with `GlobalLock.lock`): inside the
error-handling boundary it builds the resource config, API handle, CLI handler
and SNMP handler, then delegates to `F5FirewallAutoloadRunner.discover` and
returns the autoload details. -/
def get_inventory (ctx : Context) (st : DriverState) : List Event × RunnerResult :=
  let logger := get_logger_with_thread_id ctx
  let resource_config := create_firewall_resource_from_context SHELL_NAME SUPPORTED_OS ctx
  let cs_api := get_api ctx
  let cli_handler : F5CliHandler := ⟨st._cli, resource_config, logger, cs_api⟩
  let snmp_handler : F5SnmpHandler := ⟨resource_config, logger, cs_api, cli_handler⟩
  let autoload_operations : F5FirewallAutoloadRunner :=
    ⟨logger, resource_config, snmp_handler⟩
  let autoload_details := RunnerResult.autoloadDiscover autoload_operations
  ([Event.lockAcquire,
    Event.logInfo logger "Autoload command started",
    Event.boundaryEnter logger,
    Event.callCreateResource SHELL_NAME SUPPORTED_OS ctx,
    Event.callGetApi ctx,
    Event.newCliHandler cli_handler,
    Event.newSnmpHandler snmp_handler,
    Event.runnerCall autoload_details,
    Event.logInfo logger "Autoload command completed",
    Event.boundaryExit,
    Event.lockRelease],
   autoload_details)

/-- driver.py `run_custom_command`: inside the error-handling boundary it
builds the resource config, API handle and CLI handler, parses the command
text with `parse_custom_commands`, delegates to
`RunCommandRunner.run_custom_command` and returns the response. -/
def run_custom_command (ctx : Context) (st : DriverState) (custom_command : String) :
    List Event × RunnerResult :=
  let logger := get_logger_with_thread_id ctx
  let resource_config := create_firewall_resource_from_context SHELL_NAME SUPPORTED_OS ctx
  let cs_api := get_api ctx
  let cli_handler : F5CliHandler := ⟨st._cli, resource_config, logger, cs_api⟩
  let send_command_operations : RunCommandRunner := ⟨logger, cli_handler⟩
  let response := RunnerResult.customCommand send_command_operations
    (parse_custom_commands custom_command)
  ([Event.logInfo logger "Run custom command started",
    Event.boundaryEnter logger,
    Event.callCreateResource SHELL_NAME SUPPORTED_OS ctx,
    Event.callGetApi ctx,
    Event.newCliHandler cli_handler,
    Event.runnerCall response,
    Event.logInfo logger "Run custom command ended with response",
    Event.boundaryExit],
   response)

/-- driver.py `run_custom_config_command`: same shape as `run_custom_command`
but delegates to `RunCommandRunner.run_custom_config_command`. -/
def run_custom_config_command (ctx : Context) (st : DriverState)
    (custom_command : String) : List Event × RunnerResult :=
  let logger := get_logger_with_thread_id ctx
  let resource_config := create_firewall_resource_from_context SHELL_NAME SUPPORTED_OS ctx
  let cs_api := get_api ctx
  let cli_handler : F5CliHandler := ⟨st._cli, resource_config, logger, cs_api⟩
  let send_command_operations : RunCommandRunner := ⟨logger, cli_handler⟩
  let response := RunnerResult.customConfigCommand send_command_operations
    (parse_custom_commands custom_command)
  ([Event.logInfo logger "Run custom config command started",
    Event.boundaryEnter logger,
    Event.callCreateResource SHELL_NAME SUPPORTED_OS ctx,
    Event.callGetApi ctx,
    Event.newCliHandler cli_handler,
    Event.runnerCall response,
    Event.logInfo logger "Run custom config command ended with response",
    Event.boundaryExit],
   response)

/-- driver.py `save`: inside the error-handling boundary it builds the
resource config, API handle and CLI handler, substitutes "running" for a falsy
`configuration_type`, delegates to `F5ConfigurationRunner.save` and returns
its response. -/
def save (ctx : Context) (st : DriverState) (folder_path configuration_type : String) :
    List Event × RunnerResult :=
  let logger := get_logger_with_thread_id ctx
  let resource_config := create_firewall_resource_from_context SHELL_NAME SUPPORTED_OS ctx
  let cs_api := get_api ctx
  let configuration_type2 := pyOr configuration_type "running"
  let cli_handler : F5CliHandler := ⟨st._cli, resource_config, logger, cs_api⟩
  let configuration_operations : F5ConfigurationRunner :=
    ⟨cli_handler, logger, resource_config, cs_api⟩
  let response := RunnerResult.configSave configuration_operations
    folder_path configuration_type2
  ([Event.logInfo logger "Save command started",
    Event.boundaryEnter logger,
    Event.callCreateResource SHELL_NAME SUPPORTED_OS ctx,
    Event.callGetApi ctx,
    Event.newCliHandler cli_handler,
    Event.logInfo logger "Saving started... ",
    Event.runnerCall response,
    Event.logInfo logger "Save command completed",
    Event.boundaryExit],
   response)

/-- driver.py `restore` (decorated with `GlobalLock.lock`): inside the
error-handling boundary it builds the resource config, API handle and CLI
handler, substitutes "running" for a falsy `configuration_type` and "override"
for a falsy `restore_method`, then delegates to
`F5ConfigurationRunner.restore`; the method itself returns None (Unit). -/
def restore (ctx : Context) (st : DriverState)
    (path configuration_type restore_method : String) : List Event × Unit :=
  let logger := get_logger_with_thread_id ctx
  let resource_config := create_firewall_resource_from_context SHELL_NAME SUPPORTED_OS ctx
  let cs_api := get_api ctx
  let configuration_type2 := pyOr configuration_type "running"
  let restore_method2 := pyOr restore_method "override"
  let cli_handler : F5CliHandler := ⟨st._cli, resource_config, logger, cs_api⟩
  let configuration_operations : F5ConfigurationRunner :=
    ⟨cli_handler, logger, resource_config, cs_api⟩
  ([Event.lockAcquire,
    Event.logInfo logger "Restore command started",
    Event.boundaryEnter logger,
    Event.callCreateResource SHELL_NAME SUPPORTED_OS ctx,
    Event.callGetApi ctx,
    Event.newCliHandler cli_handler,
    Event.logInfo logger "Restoring started...",
    Event.runnerCall (RunnerResult.configRestore configuration_operations
      path restore_method2 configuration_type2),
    Event.logInfo logger "Restore command completed",
    Event.boundaryExit,
    Event.lockRelease],
   ())

/-- driver.py `load_firmware` (decorated with `GlobalLock.lock`): inside the
error-handling boundary it builds the resource config, API handle and CLI
handler, delegates to `F5FirmwareRunner.load_firmware` and returns its
response. -/
def load_firmware (ctx : Context) (st : DriverState) (path : String) :
    List Event × RunnerResult :=
  let logger := get_logger_with_thread_id ctx
  let resource_config := create_firewall_resource_from_context SHELL_NAME SUPPORTED_OS ctx
  let cs_api := get_api ctx
  let cli_handler : F5CliHandler := ⟨st._cli, resource_config, logger, cs_api⟩
  let firmware_operations : F5FirmwareRunner := ⟨cli_handler, logger⟩
  let response := RunnerResult.firmwareLoad firmware_operations path
  ([Event.lockAcquire,
    Event.logInfo logger "Load firmware command started",
    Event.boundaryEnter logger,
    Event.callCreateResource SHELL_NAME SUPPORTED_OS ctx,
    Event.callGetApi ctx,
    Event.newCliHandler cli_handler,
    Event.logInfo logger "Start Loading Firmware...",
    Event.runnerCall response,
    Event.logInfo logger "Load firmware command completed with response",
    Event.boundaryExit,
    Event.lockRelease],
   response)

/-- driver.py `shutdown`: inside the error-handling boundary it builds the
resource config, API handle and CLI handler, delegates to
`StateRunner.shutdown` and returns its response. -/
def shutdown (ctx : Context) (st : DriverState) : List Event × RunnerResult :=
  let logger := get_logger_with_thread_id ctx
  let resource_config := create_firewall_resource_from_context SHELL_NAME SUPPORTED_OS ctx
  let cs_api := get_api ctx
  let cli_handler : F5CliHandler := ⟨st._cli, resource_config, logger, cs_api⟩
  let state_operations : StateRunner := ⟨logger, cs_api, resource_config, cli_handler⟩
  let response := RunnerResult.stateShutdown state_operations
  ([Event.logInfo logger "Shutdown command started",
    Event.boundaryEnter logger,
    Event.callCreateResource SHELL_NAME SUPPORTED_OS ctx,
    Event.callGetApi ctx,
    Event.newCliHandler cli_handler,
    Event.runnerCall response,
    Event.logInfo logger "Shutdown command completed with response",
    Event.boundaryExit],
   response)

/-- driver.py `orchestration_save`: inside the error-handling boundary it
builds the resource config, API handle and CLI handler, substitutes "shallow"
for a falsy `mode`, delegates to `F5ConfigurationRunner.orchestration_save`
and returns its response. -/
def orchestration_save (ctx : Context) (st : DriverState)
    (mode custom_params : String) : List Event × RunnerResult :=
  let logger := get_logger_with_thread_id ctx
  let resource_config := create_firewall_resource_from_context SHELL_NAME SUPPORTED_OS ctx
  let cs_api := get_api ctx
  let mode2 := pyOr mode "shallow"
  let cli_handler : F5CliHandler := ⟨st._cli, resource_config, logger, cs_api⟩
  let configuration_operations : F5ConfigurationRunner :=
    ⟨cli_handler, logger, resource_config, cs_api⟩
  let response := RunnerResult.orchSave configuration_operations mode2 custom_params
  ([Event.logInfo logger "Orchestration save command started",
    Event.boundaryEnter logger,
    Event.callCreateResource SHELL_NAME SUPPORTED_OS ctx,
    Event.callGetApi ctx,
    Event.newCliHandler cli_handler,
    Event.runnerCall response,
    Event.logInfo logger "Orchestration save command completed with response",
    Event.boundaryExit],
   response)

/-- driver.py `orchestration_restore`: inside the error-handling boundary it
builds the resource config, API handle and CLI handler and delegates to
`F5ConfigurationRunner.orchestration_restore`; the method returns None. -/
def orchestration_restore (ctx : Context) (st : DriverState)
    (saved_artifact_info custom_params : String) : List Event × Unit :=
  let logger := get_logger_with_thread_id ctx
  let resource_config := create_firewall_resource_from_context SHELL_NAME SUPPORTED_OS ctx
  let cs_api := get_api ctx
  let cli_handler : F5CliHandler := ⟨st._cli, resource_config, logger, cs_api⟩
  let configuration_operations : F5ConfigurationRunner :=
    ⟨cli_handler, logger, resource_config, cs_api⟩
  ([Event.logInfo logger "Orchestration restore command started",
    Event.boundaryEnter logger,
    Event.callCreateResource SHELL_NAME SUPPORTED_OS ctx,
    Event.callGetApi ctx,
    Event.newCliHandler cli_handler,
    Event.runnerCall (RunnerResult.orchRestore configuration_operations
      saved_artifact_info custom_params),
    Event.logInfo logger "Orchestration restore command completed",
    Event.boundaryExit],
   ())

/-- driver.py `health_check`: inside the error-handling boundary it builds the
resource config, API handle and CLI handler, delegates to
`StateRunner.health_check` and returns its response. -/
def health_check (ctx : Context) (st : DriverState) : List Event × RunnerResult :=
  let logger := get_logger_with_thread_id ctx
  let resource_config := create_firewall_resource_from_context SHELL_NAME SUPPORTED_OS ctx
  let cs_api := get_api ctx
  let cli_handler : F5CliHandler := ⟨st._cli, resource_config, logger, cs_api⟩
  let state_operations : StateRunner := ⟨logger, cs_api, resource_config, cli_handler⟩
  let response := RunnerResult.stateHealthCheck state_operations
  ([Event.logInfo logger "Health check command started",
    Event.boundaryEnter logger,
    Event.callCreateResource SHELL_NAME SUPPORTED_OS ctx,
    Event.callGetApi ctx,
    Event.newCliHandler cli_handler,
    Event.runnerCall response,
    Event.logInfo logger "Health check command ended with response",
    Event.boundaryExit],
   response)

/-- driver.py `cleanup`: the body is `pass`, so the method performs no
observable step, leaves the driver state untouched and returns None (Unit). -/
def cleanup (st : DriverState) : List Event × DriverState × Unit := ([], st, ())

/-- The public methods defined on F5BigIPFirewallShell2GDriver, in source
order (dunder `__init__` excluded). -/
inductive Method where
  | initializeCmd
  | getInventory
  | runCustomCommand
  | runCustomConfigCommand
  | save
  | restore
  | loadFirmware
  | shutdown
  | orchestrationSave
  | orchestrationRestore
  | healthCheck
  | cleanup
deriving DecidableEq

/-- A uniform bundle of the string arguments the various methods take, so that
all twelve methods can be dispatched under one quantifier. -/
structure CallArgs where
  custom_command : String
  folder_path : String
  configuration_type : String
  restore_method : String
  path : String
  mode : String
  custom_params : String
  saved_artifact_info : String
deriving DecidableEq

/-- The trace of observable steps a given public method performs, dispatching
to the per-method embeddings above. -/
def methodTrace (m : Method) (ctx : Context) (st : DriverState) (a : CallArgs) :
    List Event :=
  match m with
  | Method.initializeCmd => (initializeCmd ctx st).1
  | Method.getInventory => (get_inventory ctx st).1
  | Method.runCustomCommand => (run_custom_command ctx st a.custom_command).1
  | Method.runCustomConfigCommand => (run_custom_config_command ctx st a.custom_command).1
  | Method.save => (save ctx st a.folder_path a.configuration_type).1
  | Method.restore => (restore ctx st a.path a.configuration_type a.restore_method).1
  | Method.loadFirmware => (load_firmware ctx st a.path).1
  | Method.shutdown => (shutdown ctx st).1
  | Method.orchestrationSave => (orchestration_save ctx st a.mode a.custom_params).1
  | Method.orchestrationRestore =>
      (orchestration_restore ctx st a.saved_artifact_info a.custom_params).1
  | Method.healthCheck => (health_check ctx st).1
  | Method.cleanup => (cleanup st).1

/-- The ten device-facing operations: every public method other than
`initialize` and `cleanup`. -/
def deviceFacingMethods : List Method :=
  [Method.getInventory, Method.runCustomCommand, Method.runCustomConfigCommand,
   Method.save, Method.restore, Method.loadFirmware, Method.shutdown,
   Method.orchestrationSave, Method.orchestrationRestore, Method.healthCheck]

/-- Events that represent a call into the external collaborator layer. -/
def isExternalCall : Event → Bool
  | Event.callCreateResource _ _ _ => true
  | Event.callGetApi _ => true
  | Event.callGetCli _ => true
  | Event.newCliHandler _ => true
  | Event.newSnmpHandler _ => true
  | Event.runnerCall _ => true
  | _ => false

/-- Recognizes entry into the scoped error-handling boundary. -/
def isBoundaryEnter : Event → Bool
  | Event.boundaryEnter _ => true
  | _ => false

/-- Recognizes acquisition of the GlobalLock mutual-exclusion lock. -/
def isLockAcquire : Event → Bool
  | Event.lockAcquire => true
  | _ => false

/-- Recognizes a structured log line. -/
def isLogInfo : Event → Bool
  | Event.logInfo _ _ => true
  | _ => false

/-- Recognizes creation of the CLI session pool via `get_cli`. -/
def isGetCli : Event → Bool
  | Event.callGetCli _ => true
  | _ => false

/-- Recognizes construction of an F5CliHandler. -/
def isNewCliHandler : Event → Bool
  | Event.newCliHandler _ => true
  | _ => false

/-- Recognizes delegation to a runner object. -/
def isRunnerCall : Event → Bool
  | Event.runnerCall _ => true
  | _ => false

/-- Scans a trace keeping the current error-boundary nesting depth and checks
that every call into the external collaborator layer happens at positive
depth, i.e. inside the scoped error-handling boundary. -/
def callsInsideBoundary : List Event → Nat → Bool
  | [], _ => true
  | Event.boundaryEnter _ :: es, d => callsInsideBoundary es (d + 1)
  | Event.boundaryExit :: es, d => callsInsideBoundary es (d - 1)
  | e :: es, d => (!(isExternalCall e) || decide (0 < d)) && callsInsideBoundary es d

/-- A trace runs its body inside a scoped error-handling boundary when it
enters such a boundary and every external collaborator call sits inside it. -/
def bodyInBoundary (tr : List Event) : Bool :=
  tr.any isBoundaryEnter && callsInsideBoundary tr 0

/-- A trace acquires the GlobalLock mutual-exclusion lock. -/
def acquiresLock (tr : List Event) : Bool := tr.any isLockAcquire

/-- A trace builds the full per-call context: resource configuration, API
handle and CLI handler. -/
def buildsPerCallContext (tr : List Event) : Bool :=
  tr.any (fun e => match e with | Event.callCreateResource _ _ _ => true | _ => false)
    && tr.any (fun e => match e with | Event.callGetApi _ => true | _ => false)
    && tr.any isNewCliHandler

/-- A trace delegates the call to a runner object. -/
def delegatesToRunner (tr : List Event) : Bool := tr.any isRunnerCall

/-- A trace logs both entry and exit: at least two structured log lines. -/
def logsEntryAndExit (tr : List Event) : Bool := 2 ≤ (tr.filter isLogInfo).length

/-- Every F5CliHandler constructed in the trace wraps exactly the session pool
`p` (the pool held by the driver instance). -/
def handlersUsePool (tr : List Event) (p : Option CliPool) : Bool :=
  tr.all fun e => match e with
    | Event.newCliHandler h => decide (h.cli = p)
    | _ => true

/-- The public method names defined on the driver class in src/driver.py, in
definition order. -/
def definedPublicMethods : List String :=
  ["initialize", "get_inventory", "run_custom_command", "run_custom_config_command",
   "save", "restore", "load_firmware", "shutdown", "orchestration_save",
   "orchestration_restore", "health_check", "cleanup"]

/-- The platform's required plugin surface as the specification lists it. -/
def requiredPluginSurface : List String :=
  ["initialize", "get_inventory", "run_custom_command", "run_custom_config_command",
   "save", "restore", "load_firmware", "shutdown", "orchestration_save",
   "orchestration_restore", "health_check", "cleanup"]

/-- Extracts the arguments forwarded to the runner call recorded in a trace,
for the four argument-defaulting delegations. -/
def forwardedSaveArgs (tr : List Event) : Option (String × String) :=
  tr.findSome? fun e => match e with
    | Event.runnerCall (RunnerResult.configSave _ fp ct) => some (fp, ct)
    | _ => none

/-- Extracts the arguments forwarded to `F5ConfigurationRunner.restore`. -/
def forwardedRestoreArgs (tr : List Event) : Option (String × String × String) :=
  tr.findSome? fun e => match e with
    | Event.runnerCall (RunnerResult.configRestore _ p rm ct) => some (p, rm, ct)
    | _ => none

/-- Extracts the arguments forwarded to
`F5ConfigurationRunner.orchestration_save`. -/
def forwardedOrchSaveArgs (tr : List Event) : Option (String × String) :=
  tr.findSome? fun e => match e with
    | Event.runnerCall (RunnerResult.orchSave _ m cp) => some (m, cp)
    | _ => none

/-- A concrete call context used to instantiate universally quantified
results: sessions_concurrency_limit attribute set to "1". -/
def sampleCtx : Context := ⟨"1"⟩

/-- A concrete driver state holding a CLI session pool of size 1, as left by a
successful initialization on `sampleCtx`. -/
def sampleState : DriverState := ⟨some (get_cli 1)⟩

/-- Concrete method arguments used to instantiate universally quantified
results. -/
def sampleArgs : CallArgs :=
  ⟨"show sys version", "ftp://host/folder", "", "", "tftp://host/fw.iso",
   "", "vrf", "artifact-info"⟩

/-- C2: exactly get_inventory, restore and load_firmware acquire the
GlobalLock mutual-exclusion lock; every other public method of the driver
performs no lock acquisition. -/
theorem c2_lock_guard (m : Method) (ctx : Context) (st : DriverState) (a : CallArgs) :
    acquiresLock (methodTrace m ctx st a)
      = decide (m = Method.getInventory ∨ m = Method.restore ∨ m = Method.loadFirmware) := by
  cases m
  case initializeCmd =>
    unfold methodTrace initializeCmd
    cases hp : pyInt (create_firewall_resource_from_context SHELL_NAME
        SUPPORTED_OS ctx).sessions_concurrency_limit <;>
      simp [hp, acquiresLock, isLockAcquire]
  all_goals rfl

/-- C1 counterexample: the claim says every public operation, initialize
included, runs its body inside the ErrorHandlingContext boundary; on a
concrete context the trace of `initialize` never enters such a boundary. -/
theorem c1_counterexample :
    bodyInBoundary (methodTrace Method.initializeCmd sampleCtx sampleState sampleArgs)
      = false := by decide

/-- C1 (amended): exactly the ten device-facing operations run their bodies
inside the scoped error-handling boundary, every external collaborator call
happening between boundary entry and exit; initialize and cleanup never enter
the boundary. -/
theorem c1_error_boundary (m : Method) (ctx : Context) (st : DriverState)
    (a : CallArgs) :
    bodyInBoundary (methodTrace m ctx st a) = decide (m ∈ deviceFacingMethods) := by
  cases m
  case initializeCmd =>
    unfold methodTrace initializeCmd
    cases hp : pyInt (create_firewall_resource_from_context SHELL_NAME
        SUPPORTED_OS ctx).sessions_concurrency_limit <;>
      simp [hp, bodyInBoundary, callsInsideBoundary, isBoundaryEnter,
        isExternalCall] <;> decide
  all_goals rfl

/-- C5 counterexample: the claim says every public method, cleanup included,
builds a per-call context, delegates to a runner and logs entry and exit; the
trace of `cleanup` is empty, so it does none of the three. -/
theorem c5_counterexample :
    buildsPerCallContext (methodTrace Method.cleanup sampleCtx sampleState sampleArgs)
        = false
      ∧ delegatesToRunner (methodTrace Method.cleanup sampleCtx sampleState sampleArgs)
        = false
      ∧ logsEntryAndExit (methodTrace Method.cleanup sampleCtx sampleState sampleArgs)
        = false := by decide

/-- C5 (amended): exactly the ten device-facing operations build the per-call
context (resource configuration, API handle, CLI handler), delegate the call
to a runner object, and log both entry and exit; initialize and cleanup do
not. -/
theorem c5_dispatch_shape (m : Method) (ctx : Context) (st : DriverState)
    (a : CallArgs) :
    (buildsPerCallContext (methodTrace m ctx st a)
        && delegatesToRunner (methodTrace m ctx st a)
        && logsEntryAndExit (methodTrace m ctx st a))
      = decide (m ∈ deviceFacingMethods) := by
  cases m
  case initializeCmd =>
    unfold methodTrace initializeCmd
    cases hp : pyInt (create_firewall_resource_from_context SHELL_NAME
        SUPPORTED_OS ctx).sessions_concurrency_limit <;>
      simp [hp, buildsPerCallContext, delegatesToRunner, logsEntryAndExit,
        isNewCliHandler, isRunnerCall, isLogInfo] <;> decide
  all_goals rfl

/-- C3: when `int()` succeeds on the sessions_concurrency_limit attribute of
the resource configuration built from the context, `initialize` calls
`get_cli` with exactly that integer, and with no other value. -/
theorem c3_session_pool_size (ctx : Context) (st : DriverState) (n : Int)
    (h : pyInt (create_firewall_resource_from_context SHELL_NAME SUPPORTED_OS
      ctx).sessions_concurrency_limit = some n) :
    Event.callGetCli n ∈ (initializeCmd ctx st).1
      ∧ (initializeCmd ctx st).1.all
          (fun e => !(isGetCli e) || decide (e = Event.callGetCli n)) = true := by
  unfold initializeCmd
  simp only [h]
  exact ⟨by simp, by simp [isGetCli]⟩

/-- C3 witness: on the concrete context with the attribute "1", the limit
parses to 1 and `initialize` hands exactly 1 to `get_cli`. -/
theorem c3_witness :
    pyInt (create_firewall_resource_from_context SHELL_NAME SUPPORTED_OS
        sampleCtx).sessions_concurrency_limit = some 1
      ∧ (Event.callGetCli 1 ∈ (initializeCmd sampleCtx ⟨none⟩).1
          ∧ (initializeCmd sampleCtx ⟨none⟩).1.all
              (fun e => !(isGetCli e) || decide (e = Event.callGetCli 1)) = true) :=
  ⟨by decide, c3_session_pool_size sampleCtx ⟨none⟩ 1 (by decide)⟩

/-- C4: every device-facing operation performs no `get_cli` call, constructs
an F5CliHandler, and every F5CliHandler it constructs wraps exactly the pool
stored in the driver's `_cli` field. -/
theorem c4_single_pool (m : Method) (ctx : Context) (st : DriverState)
    (a : CallArgs) (hm : m ∈ deviceFacingMethods) :
    (methodTrace m ctx st a).all (fun e => !(isGetCli e)) = true
      ∧ (methodTrace m ctx st a).any isNewCliHandler = true
      ∧ handlersUsePool (methodTrace m ctx st a) st._cli = true := by
  fin_cases hm <;>
    exact ⟨rfl, rfl, by simp [methodTrace, handlersUsePool,
      get_inventory, run_custom_command, run_custom_config_command, save,
      restore, load_firmware, shutdown, orchestration_save,
      orchestration_restore, health_check]⟩

/-- C4 witness: get_inventory on a concrete context and state creates no pool
and wraps the instance's pool in the CLI handler it builds. -/
theorem c4_witness :
    Method.getInventory ∈ deviceFacingMethods
      ∧ ((methodTrace Method.getInventory sampleCtx sampleState sampleArgs).all
            (fun e => !(isGetCli e)) = true
        ∧ (methodTrace Method.getInventory sampleCtx sampleState sampleArgs).any
            isNewCliHandler = true
        ∧ handlersUsePool (methodTrace Method.getInventory sampleCtx sampleState
            sampleArgs) sampleState._cli = true) :=
  ⟨by decide,
   c4_single_pool Method.getInventory sampleCtx sampleState sampleArgs (by decide)⟩

/-- C6: the public methods defined on the driver class are exactly the
platform's required plugin surface. -/
theorem c6_plugin_surface :
    definedPublicMethods = requiredPluginSurface
      ∧ ∀ s : String, s ∈ definedPublicMethods ↔ s ∈ requiredPluginSurface :=
  ⟨rfl, fun _ => Iff.rfl⟩

/-- C7: run_custom_command and run_custom_config_command build the resource
configuration, API handle and CLI handler from the call context, forward the
command parsed by parse_custom_commands to the corresponding RunCommandRunner
method, and return the runner's response unchanged. -/
theorem c7_custom_command_dispatch (ctx : Context) (st : DriverState)
    (custom_command : String) :
    ((run_custom_command ctx st custom_command).2
        = RunnerResult.customCommand
            ⟨get_logger_with_thread_id ctx,
             ⟨st._cli, create_firewall_resource_from_context SHELL_NAME SUPPORTED_OS ctx,
              get_logger_with_thread_id ctx, get_api ctx⟩⟩
            (parse_custom_commands custom_command)
      ∧ Event.runnerCall ((run_custom_command ctx st custom_command).2)
          ∈ (run_custom_command ctx st custom_command).1)
    ∧ ((run_custom_config_command ctx st custom_command).2
        = RunnerResult.customConfigCommand
            ⟨get_logger_with_thread_id ctx,
             ⟨st._cli, create_firewall_resource_from_context SHELL_NAME SUPPORTED_OS ctx,
              get_logger_with_thread_id ctx, get_api ctx⟩⟩
            (parse_custom_commands custom_command)
      ∧ Event.runnerCall ((run_custom_config_command ctx st custom_command).2)
          ∈ (run_custom_config_command ctx st custom_command).1) :=
  ⟨⟨rfl, by simp [run_custom_command]⟩, ⟨rfl, by simp [run_custom_config_command]⟩⟩

/-- C8: a falsy (empty) configuration_type becomes "running" in save and
restore, a falsy restore_method becomes "override" in restore, and a falsy
mode becomes "shallow" in orchestration_save; non-empty arguments are
forwarded to the runner unchanged. -/
theorem c8_argument_defaults (ctx : Context) (st : DriverState)
    (folder_path configuration_type path restore_method mode custom_params : String) :
    forwardedSaveArgs ((save ctx st folder_path configuration_type).1)
        = some (folder_path,
            if configuration_type = "" then "running" else configuration_type)
      ∧ forwardedRestoreArgs
          ((restore ctx st path configuration_type restore_method).1)
        = some (path,
            (if restore_method = "" then "override" else restore_method),
            (if configuration_type = "" then "running" else configuration_type))
      ∧ forwardedOrchSaveArgs ((orchestration_save ctx st mode custom_params).1)
        = some ((if mode = "" then "shallow" else mode), custom_params) :=
  ⟨rfl, rfl, rfl⟩

/-- C9: when `int()` succeeds on the sessions_concurrency_limit attribute,
`initialize` returns exactly the string "Finished initializing" and its only
effect on the driver state is storing the freshly created session pool in the
`_cli` field. -/
theorem c9_initialize_result (ctx : Context) (st : DriverState) (n : Int)
    (h : pyInt (create_firewall_resource_from_context SHELL_NAME SUPPORTED_OS
      ctx).sessions_concurrency_limit = some n) :
    (initializeCmd ctx st).2
      = some ({ st with _cli := some (get_cli n) }, "Finished initializing") := by
  unfold initializeCmd
  simp only [h]

/-- C9 witness: on the concrete context with the attribute "1" and the fresh
state, `initialize` yields the state holding the pool of size 1 and the
string "Finished initializing". -/
theorem c9_witness :
    pyInt (create_firewall_resource_from_context SHELL_NAME SUPPORTED_OS
        sampleCtx).sessions_concurrency_limit = some 1
      ∧ (initializeCmd sampleCtx ⟨none⟩).2
        = some ({ _cli := some (get_cli 1) }, "Finished initializing") :=
  ⟨by decide, c9_initialize_result sampleCtx ⟨none⟩ 1 (by decide)⟩

/-- C10: cleanup is a no-op: it performs no observable step, returns the
driver state unchanged (in particular the `_cli` field), and returns None. -/
theorem c10_cleanup_noop (st : DriverState) :
    cleanup st = ([], st, ()) ∧ (cleanup st).2.1._cli = st._cli :=
  ⟨rfl, rfl⟩

end F5Driver
